import Mathlib

/-!
# Verification of the gastown merge-queue engine (`internal/refinery/engineer.go`)

Shallow embedding of the merge-queue processing agent. External effects
(the `beads` tracker, the filesystem, stdout logging) are made explicit:
each engine function takes an environment describing the outcome of every
external call it may make and returns its Go return value together with an
ordered trace of the externally visible events it performed (tracker calls
with their success flag, pipeline invocations, log lines).
-/

namespace Refinery

/-- A work item as seen by the engine (`beads.Issue`): the engine reads only
`ID` and `Title` directly; the description is consumed by the (external)
`beads.ParseMRFields`, modelled in `TrackerEnv.parse`. -/
structure Issue where
  id : String
  title : String
deriving Repr, DecidableEq

/-- The structured fields `beads.ParseMRFields` extracts from an item's
description block: `branch`, `target`, `worker`. -/
structure MRFields where
  branch : String
  target : String
  worker : String
deriving Repr, DecidableEq

/-- Result of processing a merge request (`ProcessResult`). -/
structure ProcessResult where
  success : Bool
  mergeCommit : String
  error : String
  conflict : Bool
  testsFailed : Bool
deriving Repr, DecidableEq

/-- Merge queue configuration (`MergeQueueConfig`). `pollInterval` is Go's
`time.Duration`, an integer count of nanoseconds. -/
structure MergeQueueConfig where
  enabled : Bool
  targetBranch : String
  integrationBranches : Bool
  onConflict : String
  runTests : Bool
  testCommand : String
  deleteMergedBranches : Bool
  retryFlakyTests : Int
  pollInterval : Int
  maxConcurrent : Int
deriving Repr, DecidableEq

/-- `DefaultMergeQueueConfig`: the hard defaults
(`30 * time.Second = 30000000000 ns`). -/
def DefaultMergeQueueConfig : MergeQueueConfig :=
  { enabled := true
    targetBranch := "main"
    integrationBranches := true
    onConflict := "assign_back"
    runTests := true
    testCommand := ""
    deleteMergedBranches := true
    retryFlakyTests := 1
    pollInterval := 30000000000
    maxConcurrent := 1 }

/-- Modelled from the spec: the unit table of Go's `time.ParseDuration`
(standard library, not part of this repository), nanoseconds per unit.
The unicode aliases of "us" are omitted. -/
def unitNanos : String → Option Int
  | "ns" => some 1
  | "us" => some 1000
  | "ms" => some 1000000
  | "s" => some 1000000000
  | "m" => some 60000000000
  | "h" => some 3600000000000
  | _ => none

/-- Value of a list of decimal digit characters. -/
def digitsVal (ds : List Char) : Nat :=
  ds.foldl (fun a c => 10 * a + (c.toNat - 48)) 0

/-- Modelled from the spec: the segment loop of Go's `time.ParseDuration`.
A duration string is a sequence of `<decimal integer><unit>` segments whose
values (in nanoseconds) are summed; an empty digit run or an unknown unit is
a parse error. Fractions, signs and overflow checking of the stdlib parser
are elided (the spec exercises only well-formed integer durations such as
"30s" and fully malformed strings). Fuel is the input length; each segment
consumes at least one character. -/
def parseDurSegs : Nat → List Char → Option Int
  | _, [] => some 0
  | 0, _ :: _ => none
  | Nat.succ fuel, cs => Id.run do
    let ds := cs.takeWhile Char.isDigit
    let rest1 := cs.dropWhile Char.isDigit
    if ds.isEmpty then
      return none
    let us := rest1.takeWhile Char.isAlpha
    let rest2 := rest1.dropWhile Char.isAlpha
    match unitNanos (String.mk us) with
    | none => return none
    | some u =>
      match parseDurSegs fuel rest2 with
      | none => return none
      | some v => return some ((digitsVal ds : Int) * u + v)

/-- Modelled from the spec: Go's `time.ParseDuration` on the fragment the
spec relies on. `"0"` is the stdlib's special case for a zero duration;
the empty string is an error. Returns nanoseconds. -/
def parseGoDuration (s : String) : Option Int :=
  if s = "0" then some 0
  else if s.data.isEmpty then none
  else parseDurSegs s.data.length s.data

/-- The decoded `merge_queue` JSON object (`mqRaw` in `LoadConfig`): every
recognized key is optional; `poll_interval` arrives as a string. -/
structure RawMergeQueue where
  enabled : Option Bool := none
  target_branch : Option String := none
  integration_branches : Option Bool := none
  on_conflict : Option String := none
  run_tests : Option Bool := none
  test_command : Option String := none
  delete_merged_branches : Option Bool := none
  retry_flaky_tests : Option Int := none
  poll_interval : Option String := none
  max_concurrent : Option Int := none
deriving Repr, DecidableEq

/-- The possible outcomes of reading and JSON-decoding `config.json`
(`os.ReadFile` + the two `json.Unmarshal` calls are external; their outcome
is an input to `LoadConfig`). -/
inductive ConfigFile where
  /-- `os.ReadFile` failed with `os.IsNotExist`. -/
  | missing
  /-- `os.ReadFile` failed with any other error. -/
  | readError (msg : String)
  /-- top-level `json.Unmarshal` failed. -/
  | parseError (msg : String)
  /-- the document decoded but has no `merge_queue` key (RawMessage nil). -/
  | noMqSection
  /-- `json.Unmarshal` of the `merge_queue` section failed. -/
  | mqParseError (msg : String)
  /-- the `merge_queue` section decoded to `raw`. -/
  | mqSection (raw : RawMergeQueue)
deriving Repr

/-- `LoadConfig`: overlay each present key of the `merge_queue` section on
the current configuration `cfg`, error on unreadable file, undecodable JSON
or invalid `poll_interval`. The Go method mutates `e.config` in place and on
an invalid `poll_interval` returns the error after the other keys were
already applied; that partial mutation is unobservable (the only caller,
`Run`, aborts on error), so the error case here carries no configuration.
The wrapped stdlib error text after the quoted value is elided. -/
def LoadConfig (f : ConfigFile) (cfg : MergeQueueConfig) :
    Except String MergeQueueConfig :=
  match f with
  | .missing => .ok cfg
  | .readError e => .error ("reading config: " ++ e)
  | .parseError e => .error ("parsing config: " ++ e)
  | .noMqSection => .ok cfg
  | .mqParseError e => .error ("parsing merge_queue config: " ++ e)
  | .mqSection raw =>
    let cfg1 : MergeQueueConfig :=
      { enabled := raw.enabled.getD cfg.enabled
        targetBranch := raw.target_branch.getD cfg.targetBranch
        integrationBranches := raw.integration_branches.getD cfg.integrationBranches
        onConflict := raw.on_conflict.getD cfg.onConflict
        runTests := raw.run_tests.getD cfg.runTests
        testCommand := raw.test_command.getD cfg.testCommand
        deleteMergedBranches := raw.delete_merged_branches.getD cfg.deleteMergedBranches
        retryFlakyTests := raw.retry_flaky_tests.getD cfg.retryFlakyTests
        pollInterval := cfg.pollInterval
        maxConcurrent := raw.max_concurrent.getD cfg.maxConcurrent }
    match raw.poll_interval with
    | none => .ok cfg1
    | some s =>
      match parseGoDuration s with
      | none => .error ("invalid poll_interval \"" ++ s ++ "\"")
      | some d => .ok { cfg1 with pollInterval := d }

/-- Externally visible events of one engine run, in program order. Tracker
calls carry `ok`: whether the external tracker accepted the call (`ok =
false` means the Go call returned an error, so the tracker state did not
change). `processMRCall` marks the pipeline invocation (`e.ProcessMR`);
`tickerStarted` marks `time.NewTicker`; `log` is a line printed to stdout. -/
inductive Event where
  | updateCall (id : String) (status : String) (ok : Bool)
  | closeCall (reason : String) (id : String) (ok : Bool)
  | processMRCall (id : String)
  | tickerStarted (pollNs : Int)
  | startLog (rigName : String) (pollNs : Int)
  | log (msg : String)
deriving Repr, DecidableEq

/-- A tracker mutation is a tracker call the tracker accepted. -/
def Event.isMutation : Event → Bool
  | .updateCall _ _ ok => ok
  | .closeCall _ _ ok => ok
  | _ => false

/-- A pipeline invocation event. -/
def Event.isPipeline : Event → Bool
  | .processMRCall _ => true
  | _ => false

/-- A successful claim: an accepted status update to `in_progress`. -/
def Event.isClaim : Event → Bool
  | .updateCall _ status ok => ok && status == "in_progress"
  | _ => false

/-- Behaviour of the external collaborators during one cycle: the outcome of
the `beads` tracker calls the engine may issue, and of `beads.ParseMRFields`
(repository code outside this package's file, consumed as an interface).
`updateRes id status` / `closeRes reason id` return `none` when the call
succeeds and `some msg` when it fails with error text `msg`. -/
structure TrackerEnv where
  ready : Except String (List Issue)
  updateRes : String → String → Option String
  closeRes : String → String → Option String
  parse : Issue → Option MRFields

/-- `ProcessMR` (placeholder implementation, `gt-3x1.2`): parse the MR
fields; on parse failure return a failed result; otherwise log what would be
done and return a failed "not fully implemented" result. The Go struct
literals leave `MergeCommit`, `Conflict`, `TestsFailed` at their zero
values. `cfg` is the receiver's configuration, unread by this body. -/
def ProcessMR (cfg : MergeQueueConfig) (env : TrackerEnv) (mr : Issue) :
    ProcessResult × List Event :=
  match env.parse mr with
  | none =>
      ({ success := false, mergeCommit := "",
         error := "no MR fields found in description",
         conflict := false, testsFailed := false }, [])
  | some f =>
      ({ success := false, mergeCommit := "",
         error := "ProcessMR not fully implemented (see gt-3x1.2)",
         conflict := false, testsFailed := false },
       [Event.log "[Engineer] Would process:",
        Event.log ("  Branch: " ++ f.branch),
        Event.log ("  Target: " ++ f.target),
        Event.log ("  Worker: " ++ f.worker)])

/-- `handleFailure` (placeholder implementation, `gt-3x1.4`): issue a status
update back to `open`; if that update fails, log a warning; then log the
failure with the item id and the error. Returns nothing to its caller.
`cfg` is the receiver's configuration; the body never reads it (in
particular `OnConflict` is ignored). -/
def handleFailure (cfg : MergeQueueConfig) (env : TrackerEnv) (mr : Issue)
    (result : ProcessResult) : List Event :=
  (match env.updateRes mr.id "open" with
   | none => [Event.updateCall mr.id "open" true]
   | some e =>
       [Event.updateCall mr.id "open" false,
        Event.log ("[Engineer] Warning: failed to reopen MR " ++ mr.id ++ ": " ++ e)]) ++
  [Event.log ("[Engineer] ✗ Failed: " ++ mr.id ++ " - " ++ result.error)]

/-- Step 6 of `processOnce` (result dispatch, inline in the Go source): on
success close the item with reason `"merged: " ++ commit` — a failure of the
close call is logged as a warning, nothing else happens — and log the merge;
on failure delegate to `handleFailure`. Never produces an error value. -/
def handleResult (cfg : MergeQueueConfig) (env : TrackerEnv) (mr : Issue)
    (result : ProcessResult) : List Event :=
  if result.success then
    let reason := "merged: " ++ result.mergeCommit
    match env.closeRes reason mr.id with
    | some e =>
        [Event.closeCall reason mr.id false,
         Event.log ("[Engineer] Warning: failed to close MR " ++ mr.id ++ ": " ++ e),
         Event.log ("[Engineer] ✓ Merged: " ++ mr.id)]
    | none =>
        [Event.closeCall reason mr.id true,
         Event.log ("[Engineer] ✓ Merged: " ++ mr.id)]
  else
    handleFailure cfg env mr result

/-- `processOnce`: one cycle of the engine loop. Returns the Go error value
(`none` = nil) and the event trace. `ctxDone` is whether `ctx.Done()` is
already closed at the initial non-blocking select. -/
def processOnce (cfg : MergeQueueConfig) (ctxDone : Bool) (env : TrackerEnv) :
    Option String × List Event :=
  if ctxDone then (none, [])
  else
    match env.ready with
    | .error e => (some ("querying ready merge-requests: " ++ e), [])
    | .ok readyMRs =>
      match readyMRs with
      | [] => (none, [])
      | mr :: _ =>
        let procLog := Event.log ("[Engineer] Processing: " ++ mr.id ++ " (" ++ mr.title ++ ")")
        match env.updateRes mr.id "in_progress" with
        | some e =>
            (some ("claiming MR " ++ mr.id ++ ": " ++ e),
             [procLog, Event.updateCall mr.id "in_progress" false])
        | none =>
            let pr := ProcessMR cfg env mr
            (none,
             [procLog, Event.updateCall mr.id "in_progress" true,
              Event.processMRCall mr.id] ++ pr.2 ++ handleResult cfg env mr pr.1)

/-- The engine's stop channel (`stopCh`): its only observable state is
whether it has been closed. `NewEngineer` creates it open. -/
structure StopChannel where
  closed : Bool
deriving Repr, DecidableEq

/-- Modelled from the spec: the Go runtime's `close` on a channel (not
repository code) — closing an open channel closes it and returns;
closing an already-closed channel panics with
"close of closed channel". -/
def closeChan (c : StopChannel) : Except String StopChannel :=
  if c.closed then .error "close of closed channel"
  else .ok { closed := true }

/-- `Stop`: `close(e.stopCh)`, with no guard. The Go call never blocks;
here it is a total function on the channel state. An `error` value models a
panic of the Go call. -/
def Stop (c : StopChannel) : Except String StopChannel :=
  closeChan c

/-- `stopCh` as `NewEngineer` creates it: an open channel. -/
def newEngineerStopCh : StopChannel := { closed := false }

/-- One wake-up of the `Run` wait loop: which `select` case fires, in
order of arrival. A tick carries the external behaviour for that cycle. -/
inductive RunEvent where
  | ctxCancelled
  | stopSignal
  | tick (ctxDone : Bool) (env : TrackerEnv)

/-- The `for { select ... } }` loop of `Run`. Returns `some (.ok ())` when a
cancellation or stop event leads to clean shutdown, `none` when the supplied
events are exhausted with the loop still blocked waiting. -/
def runLoop (cfg : MergeQueueConfig) :
    List RunEvent → List Event → Option (Except String Unit) × List Event
  | [], acc => (none, acc)
  | RunEvent.ctxCancelled :: _, acc =>
      (some (.ok ()), acc ++ [Event.log "[Engineer] Shutting down (context cancelled)"])
  | RunEvent.stopSignal :: _, acc =>
      (some (.ok ()), acc ++ [Event.log "[Engineer] Shutting down (stop signal)"])
  | RunEvent.tick ctxDone env :: rest, acc =>
      let r := processOnce cfg ctxDone env
      let errLog := match r.1 with
        | some e => [Event.log ("[Engineer] Error: " ++ e)]
        | none => []
      runLoop cfg rest (acc ++ r.2 ++ errLog)

/-- `Run`: load the configuration (onto the defaults installed by
`NewEngineer`); error out if loading fails or the queue is disabled; print
the start line, start the ticker, run one immediate cycle (its error only
logged), then enter the wait loop. `f` is the state of `config.json`,
`firstCtxDone`/`firstEnv` drive the immediate cycle, `evs` the wake-ups. -/
def Run (rigName : String) (f : ConfigFile) (firstCtxDone : Bool)
    (firstEnv : TrackerEnv) (evs : List RunEvent) :
    Option (Except String Unit) × List Event :=
  match LoadConfig f DefaultMergeQueueConfig with
  | .error e => (some (.error ("loading config: " ++ e)), [])
  | .ok cfg =>
    if !cfg.enabled then
      (some (.error "merge queue is disabled in configuration"), [])
    else
      let r := processOnce cfg firstCtxDone firstEnv
      let errLog := match r.1 with
        | some e => [Event.log ("[Engineer] Error: " ++ e)]
        | none => []
      runLoop cfg evs
        ([Event.startLog rigName cfg.pollInterval,
          Event.tickerStarted cfg.pollInterval] ++ r.2 ++ errLog)

/-! ## Concrete instances used by witnesses and counterexamples -/

/-- A concrete merge request. -/
def mrEx : Issue := { id := "gt-mr-1", title := "Add feature" }

/-- A tracker that accepts every call, with one ready merge request whose
description carries no MR fields. -/
def envOkAll : TrackerEnv :=
  { ready := .ok [mrEx]
    updateRes := fun _ _ => none
    closeRes := fun _ _ => none
    parse := fun _ => none }

/-- A tracker with an empty ready queue. -/
def envEmpty : TrackerEnv :=
  { ready := .ok []
    updateRes := fun _ _ => none
    closeRes := fun _ _ => none
    parse := fun _ => none }

/-! ## Helper lemmas -/

/-- On a non-empty ready queue with a successful claim, `processOnce`
returns nil and its trace is: processing log, accepted claim update,
pipeline invocation, the pipeline's logs, then the result dispatch. -/
theorem processOnce_ok_eq (cfg : MergeQueueConfig) (env : TrackerEnv)
    (mr : Issue) (rest : List Issue) (h : env.ready = Except.ok (mr :: rest))
    (hclaim : env.updateRes mr.id "in_progress" = none) :
    processOnce cfg false env =
      (none,
       [Event.log ("[Engineer] Processing: " ++ mr.id ++ " (" ++ mr.title ++ ")"),
        Event.updateCall mr.id "in_progress" true,
        Event.processMRCall mr.id] ++
         (ProcessMR cfg env mr).2 ++
         handleResult cfg env mr (ProcessMR cfg env mr).1) := by
  simp only [processOnce, if_neg (by simp : ¬(false = true)), h, hclaim]

/-- On a non-empty ready queue with a failing claim update, `processOnce`
returns the claim error and performs nothing else. -/
theorem processOnce_claimFail_eq (cfg : MergeQueueConfig) (env : TrackerEnv)
    (mr : Issue) (rest : List Issue) (msg : String)
    (h : env.ready = Except.ok (mr :: rest))
    (hclaim : env.updateRes mr.id "in_progress" = some msg) :
    processOnce cfg false env =
      (some ("claiming MR " ++ mr.id ++ ": " ++ msg),
       [Event.log ("[Engineer] Processing: " ++ mr.id ++ " (" ++ mr.title ++ ")"),
        Event.updateCall mr.id "in_progress" false]) := by
  simp only [processOnce, if_neg (by simp : ¬(false = true)), h, hclaim]

/-- The pipeline placeholder always fails, with an empty commit, a non-empty
error and neither flag set. -/
theorem ProcessMR_result (cfg : MergeQueueConfig) (env : TrackerEnv) (mr : Issue) :
    (ProcessMR cfg env mr).1.success = false ∧
    (ProcessMR cfg env mr).1.mergeCommit = "" ∧
    (ProcessMR cfg env mr).1.error ≠ "" ∧
    (ProcessMR cfg env mr).1.conflict = false ∧
    (ProcessMR cfg env mr).1.testsFailed = false := by
  unfold ProcessMR
  cases env.parse mr <;> simp

/-- The pipeline placeholder logs only `log` events. -/
theorem ProcessMR_trace_logs (cfg : MergeQueueConfig) (env : TrackerEnv)
    (mr : Issue) : ∀ e ∈ (ProcessMR cfg env mr).2, ∃ m, e = Event.log m := by
  unfold ProcessMR
  cases env.parse mr <;> simp

/-- Shape of `handleFailure`: a reopen update whose success mirrors the
tracker, a warning on rejection, and the failure log. -/
theorem handleFailure_eq (cfg : MergeQueueConfig) (env : TrackerEnv)
    (mr : Issue) (result : ProcessResult) :
    handleFailure cfg env mr result =
      (match env.updateRes mr.id "open" with
       | none => [Event.updateCall mr.id "open" true]
       | some e =>
           [Event.updateCall mr.id "open" false,
            Event.log ("[Engineer] Warning: failed to reopen MR " ++ mr.id ++ ": " ++ e)]) ++
      [Event.log ("[Engineer] ✗ Failed: " ++ mr.id ++ " - " ++ result.error)] := rfl

/-! ## Claims -/

/-- C7: for every cycle in which the tracker's ready query returns an empty
list, `processOnce` performs zero tracker mutations (its event trace is
empty, so in particular no update and no close) and returns no error. -/
theorem C7_empty_cycle_no_mutation_no_error (cfg : MergeQueueConfig)
    (env : TrackerEnv) (h : env.ready = Except.ok []) :
    processOnce cfg false env = (none, []) := by
  simp only [processOnce, if_neg (by simp : ¬(false = true)), h]

/-- C7 witness: a concrete empty ready queue. -/
theorem C7_witness :
    processOnce DefaultMergeQueueConfig false envEmpty = (none, []) :=
  C7_empty_cycle_no_mutation_no_error DefaultMergeQueueConfig envEmpty rfl

/-- C9: the stop signal is not idempotent — `Stop` on the channel as
`NewEngineer` creates it closes it and returns, `Stop` on the already
closed channel panics (close of closed channel). -/
theorem C9_stop_not_idempotent :
    Stop newEngineerStopCh = .ok { closed := true } ∧
    Stop { closed := true } = .error "close of closed channel" := by
  exact ⟨rfl, rfl⟩

/-- C2: config resolution obeys the sparse-override law — a missing file or
a missing `merge_queue` section leaves the configuration at the defaults
(Enabled=true, TargetBranch="main", IntegrationBranches=true,
OnConflict="assign_back", RunTests=true, DeleteMergedBranches=true,
RetryFlakyTests=1, PollInterval=30s, MaxConcurrent=1); a present section
overrides exactly the specified keys, each independently, and every
unspecified key keeps its default. `d` is the resulting poll interval:
the 30s default when unspecified, the parsed value when specified. -/
theorem C2_sparse_override_law (raw : RawMergeQueue) (d : Int)
    (hd : (match raw.poll_interval with
           | none => some (30000000000 : Int)
           | some s => parseGoDuration s) = some d) :
    LoadConfig ConfigFile.missing DefaultMergeQueueConfig =
        .ok DefaultMergeQueueConfig ∧
    LoadConfig ConfigFile.noMqSection DefaultMergeQueueConfig =
        .ok DefaultMergeQueueConfig ∧
    LoadConfig (ConfigFile.mqSection raw) DefaultMergeQueueConfig =
      .ok { enabled := raw.enabled.getD true
            targetBranch := raw.target_branch.getD "main"
            integrationBranches := raw.integration_branches.getD true
            onConflict := raw.on_conflict.getD "assign_back"
            runTests := raw.run_tests.getD true
            testCommand := raw.test_command.getD ""
            deleteMergedBranches := raw.delete_merged_branches.getD true
            retryFlakyTests := raw.retry_flaky_tests.getD 1
            pollInterval := d
            maxConcurrent := raw.max_concurrent.getD 1 } := by
  refine ⟨rfl, rfl, ?_⟩
  cases hpi : raw.poll_interval with
  | none =>
      rw [hpi] at hd
      simp only [Option.some.injEq] at hd
      subst hd
      simp only [LoadConfig, hpi]
      rfl
  | some s =>
      rw [hpi] at hd
      replace hd : parseGoDuration s = some d := hd
      simp only [LoadConfig, hpi, hd]
      rfl

/-- C2 witness: the spec's concrete example — a section specifying only
`target_branch = "release"` yields that branch with all other fields at
defaults. -/
theorem C2_witness :
    LoadConfig (ConfigFile.mqSection { target_branch := some "release" })
        DefaultMergeQueueConfig =
      .ok { DefaultMergeQueueConfig with targetBranch := "release" } :=
  (C2_sparse_override_law { target_branch := some "release" } 30000000000 rfl).2.2

/-- C5: `poll_interval = "30s"` loads to exactly 30 seconds (30000000000
ns), and every `merge_queue` section whose `poll_interval` string does not
parse as a duration makes `LoadConfig` return an error, never a silent
fallback to the default. -/
theorem C5_poll_interval_parse_or_fatal (raw : RawMergeQueue) (s : String)
    (hs : raw.poll_interval = some s) (hbad : parseGoDuration s = none) :
    parseGoDuration "30s" = some 30000000000 ∧
    LoadConfig (ConfigFile.mqSection { poll_interval := some "30s" })
        DefaultMergeQueueConfig =
      .ok { DefaultMergeQueueConfig with pollInterval := 30000000000 } ∧
    LoadConfig (ConfigFile.mqSection raw) DefaultMergeQueueConfig =
      .error ("invalid poll_interval \"" ++ s ++ "\"") := by
  refine ⟨by decide, rfl, ?_⟩
  simp only [LoadConfig, hs, hbad]

/-- C5 witness: the spec's malformed example `"notaduration"` is a load
error. -/
theorem C5_witness :
    LoadConfig (ConfigFile.mqSection { poll_interval := some "notaduration" })
        DefaultMergeQueueConfig =
      .error ("invalid poll_interval \"" ++ "notaduration" ++ "\"") :=
  (C5_poll_interval_parse_or_fatal { poll_interval := some "notaduration" }
    "notaduration" rfl (by decide)).2.2

/-- C6: if the resolved configuration has `enabled = false`, `Run` returns
the disabled error right after loading the configuration, with an empty
event trace — no start log, no ticker, no processing cycle, no tracker
call. -/
theorem C6_disabled_is_startup_error (rigName : String) (f : ConfigFile)
    (cfg : MergeQueueConfig) (firstCtxDone : Bool) (firstEnv : TrackerEnv)
    (evs : List RunEvent)
    (hload : LoadConfig f DefaultMergeQueueConfig = .ok cfg)
    (hdis : cfg.enabled = false) :
    Run rigName f firstCtxDone firstEnv evs =
      (some (.error "merge queue is disabled in configuration"), []) := by
  unfold Run
  rw [hload]
  simp [hdis]

/-- C6 witness: a config file disabling the queue makes `Run` fail at
startup with an empty trace. -/
theorem C6_witness :
    Run "gastown" (ConfigFile.mqSection { enabled := some false }) false
        envEmpty [] =
      (some (.error "merge queue is disabled in configuration"), []) :=
  C6_disabled_is_startup_error "gastown"
    (ConfigFile.mqSection { enabled := some false })
    { DefaultMergeQueueConfig with enabled := false } false envEmpty [] rfl rfl

/-- When the pipeline result is a failure, the result dispatch is exactly
the failure handler. -/
theorem handleResult_of_fail (cfg : MergeQueueConfig) (env : TrackerEnv)
    (mr : Issue) (result : ProcessResult) (hs : result.success = false) :
    handleResult cfg env mr result = handleFailure cfg env mr result := by
  simp [handleResult, hs]

/-- The failure handler always issues the reopen update; its recorded
success mirrors the tracker's answer. -/
theorem handleFailure_mem_reopen (cfg : MergeQueueConfig) (env : TrackerEnv)
    (mr : Issue) (result : ProcessResult) :
    Event.updateCall mr.id "open" (env.updateRes mr.id "open").isNone ∈
      handleFailure cfg env mr result := by
  rw [handleFailure_eq]
  cases env.updateRes mr.id "open" <;> simp

/-- The failure handler always logs the item id and the error string. -/
theorem handleFailure_mem_faillog (cfg : MergeQueueConfig) (env : TrackerEnv)
    (mr : Issue) (result : ProcessResult) :
    Event.log ("[Engineer] ✗ Failed: " ++ mr.id ++ " - " ++ result.error) ∈
      handleFailure cfg env mr result := by
  rw [handleFailure_eq]
  cases env.updateRes mr.id "open" <;> simp

/-- The failure handler never claims (no `in_progress` update). -/
theorem handleFailure_no_claim (cfg : MergeQueueConfig) (env : TrackerEnv)
    (mr : Issue) (result : ProcessResult) :
    ∀ e ∈ handleFailure cfg env mr result, e.isClaim = false := by
  intro e he
  rw [handleFailure_eq] at he
  cases henv : env.updateRes mr.id "open" <;> rw [henv] at he <;>
    simp only [List.cons_append, List.nil_append, List.mem_cons,
      List.not_mem_nil, or_false] at he
  · rcases he with rfl | rfl <;> simp [Event.isClaim]
  · rcases he with rfl | rfl | rfl <;> simp [Event.isClaim]

/-- The failure handler never closes. -/
theorem handleFailure_no_close (cfg : MergeQueueConfig) (env : TrackerEnv)
    (mr : Issue) (result : ProcessResult) :
    ∀ reason id b, Event.closeCall reason id b ∉ handleFailure cfg env mr result := by
  intro reason id b hmem
  rw [handleFailure_eq] at hmem
  cases henv : env.updateRes mr.id "open" <;> rw [henv] at hmem <;> simp at hmem

/-- The failure handler never invokes the pipeline. -/
theorem handleFailure_no_pipeline (cfg : MergeQueueConfig) (env : TrackerEnv)
    (mr : Issue) (result : ProcessResult) :
    ∀ e ∈ handleFailure cfg env mr result, e.isPipeline = false := by
  intro e he
  rw [handleFailure_eq] at he
  cases henv : env.updateRes mr.id "open" <;> rw [henv] at he <;>
    simp only [List.cons_append, List.nil_append, List.mem_cons,
      List.not_mem_nil, or_false] at he
  · rcases he with rfl | rfl <;> rfl
  · rcases he with rfl | rfl | rfl <;> rfl

/-- C1: on every non-empty ready cycle the engine claims exactly the first
item of the ready list: if the tracker accepts the claim, the trace splits
around one accepted `in_progress` update for that item, preceded by no
pipeline invocation and no tracker mutation, and followed by no further
claim; if the claim update fails, `processOnce` aborts with the claim
error and the whole trace has no pipeline invocation and no tracker
mutation at all. -/
theorem C1_claims_first_item_before_pipeline (cfg : MergeQueueConfig)
    (env : TrackerEnv) (mr : Issue) (rest : List Issue)
    (h : env.ready = Except.ok (mr :: rest)) :
    (env.updateRes mr.id "in_progress" = none →
      ∃ pre post,
        (processOnce cfg false env).2 =
          pre ++ Event.updateCall mr.id "in_progress" true :: post ∧
        (∀ e ∈ pre, e.isPipeline = false ∧ e.isMutation = false) ∧
        (∀ e ∈ post, e.isClaim = false)) ∧
    (∀ msg, env.updateRes mr.id "in_progress" = some msg →
      (processOnce cfg false env).1 =
        some ("claiming MR " ++ mr.id ++ ": " ++ msg) ∧
      ∀ e ∈ (processOnce cfg false env).2,
        e.isPipeline = false ∧ e.isMutation = false) := by
  constructor
  · intro hclaim
    rw [processOnce_ok_eq cfg env mr rest h hclaim]
    refine ⟨[Event.log ("[Engineer] Processing: " ++ mr.id ++ " (" ++ mr.title ++ ")")],
      Event.processMRCall mr.id ::
        ((ProcessMR cfg env mr).2 ++ handleResult cfg env mr (ProcessMR cfg env mr).1),
      by simp, ?_, ?_⟩
    · intro e he
      simp only [List.mem_singleton] at he
      subst he
      exact ⟨rfl, rfl⟩
    · intro e he
      simp only [List.mem_cons, List.mem_append] at he
      rcases he with rfl | he | he
      · rfl
      · obtain ⟨m, rfl⟩ := ProcessMR_trace_logs cfg env mr e he
        rfl
      · rw [handleResult_of_fail cfg env mr _ (ProcessMR_result cfg env mr).1] at he
        exact handleFailure_no_claim cfg env mr _ e he
  · intro msg hclaim
    rw [processOnce_claimFail_eq cfg env mr rest msg h hclaim]
    refine ⟨rfl, ?_⟩
    intro e he
    simp only [List.mem_cons, List.not_mem_nil, or_false] at he
    rcases he with rfl | rfl
    · exact ⟨rfl, rfl⟩
    · exact ⟨rfl, rfl⟩

/-- C1 witness: the successful-claim branch at a concrete one-item queue. -/
theorem C1_witness :
    ∃ pre post,
      (processOnce DefaultMergeQueueConfig false envOkAll).2 =
        pre ++ Event.updateCall mrEx.id "in_progress" true :: post ∧
      (∀ e ∈ pre, e.isPipeline = false ∧ e.isMutation = false) ∧
      (∀ e ∈ post, e.isClaim = false) :=
  (C1_claims_first_item_before_pipeline DefaultMergeQueueConfig envOkAll
    mrEx [] rfl).1 rfl

/-- A tracker that accepts the claim but rejects the reopen update issued
by the failure handler. -/
def envReopenFails : TrackerEnv :=
  { ready := .ok [mrEx]
    updateRes := fun _ status =>
      if status == "open" then some "tracker unavailable" else none
    closeRes := fun _ _ => none
    parse := fun _ => none }

/-- C3 counterexample: when the tracker rejects the handler's reopen
update, the item's status is NOT set back to open — the cycle's trace holds
the accepted claim to `in_progress` and the rejected reopen, but no
accepted update to `open`, so the item is left at `in_progress` by the
handler (which still returns no error), contradicting the claim that the
handler never leaves the item at `in_progress`. -/
theorem C3_counterexample :
    Event.updateCall mrEx.id "in_progress" true ∈
      (processOnce DefaultMergeQueueConfig false envReopenFails).2 ∧
    Event.updateCall mrEx.id "open" false ∈
      (processOnce DefaultMergeQueueConfig false envReopenFails).2 ∧
    (∀ e ∈ (processOnce DefaultMergeQueueConfig false envReopenFails).2,
      e ≠ Event.updateCall mrEx.id "open" true) ∧
    (processOnce DefaultMergeQueueConfig false envReopenFails).1 = none := by
  decide

/-- C3 amended: on every pipeline failure the handler issues an update of
the item back to `open` and it never raises — `processOnce` returns nil —
and it logs the diagnostic naming the item id and the error string; the
item's status actually returns to `open` when the tracker accepts that
update, while if the tracker rejects it the handler only logs a warning
(naming the item and the tracker error) and the item stays `in_progress`. -/
theorem C3_amended_failure_reopens (cfg : MergeQueueConfig)
    (env : TrackerEnv) (mr : Issue) (rest : List Issue)
    (h : env.ready = Except.ok (mr :: rest))
    (hclaim : env.updateRes mr.id "in_progress" = none) :
    (processOnce cfg false env).1 = none ∧
    Event.log ("[Engineer] ✗ Failed: " ++ mr.id ++ " - " ++
        (ProcessMR cfg env mr).1.error) ∈ (processOnce cfg false env).2 ∧
    (ProcessMR cfg env mr).1.error ≠ "" ∧
    (env.updateRes mr.id "open" = none →
      Event.updateCall mr.id "open" true ∈ (processOnce cfg false env).2) ∧
    (∀ msg, env.updateRes mr.id "open" = some msg →
      Event.updateCall mr.id "open" false ∈ (processOnce cfg false env).2 ∧
      Event.log ("[Engineer] Warning: failed to reopen MR " ++ mr.id ++ ": " ++ msg) ∈
        (processOnce cfg false env).2) := by
  have hfail : handleResult cfg env mr (ProcessMR cfg env mr).1 =
      handleFailure cfg env mr (ProcessMR cfg env mr).1 :=
    handleResult_of_fail cfg env mr _ (ProcessMR_result cfg env mr).1
  rw [processOnce_ok_eq cfg env mr rest h hclaim, hfail]
  refine ⟨rfl, ?_, (ProcessMR_result cfg env mr).2.2.1, ?_, ?_⟩
  · simp only [List.cons_append, List.mem_cons, List.mem_append]
    exact Or.inr (Or.inr (Or.inr (Or.inr
      (handleFailure_mem_faillog cfg env mr _))))
  · intro hopen
    have := handleFailure_mem_reopen cfg env mr (ProcessMR cfg env mr).1
    rw [hopen] at this
    simp only [List.cons_append, List.mem_cons, List.mem_append]
    exact Or.inr (Or.inr (Or.inr (Or.inr this)))
  · intro msg hopen
    constructor
    · have := handleFailure_mem_reopen cfg env mr (ProcessMR cfg env mr).1
      rw [hopen] at this
      simp only [List.cons_append, List.mem_cons, List.mem_append]
      exact Or.inr (Or.inr (Or.inr (Or.inr this)))
    · have hw : Event.log ("[Engineer] Warning: failed to reopen MR " ++
          mr.id ++ ": " ++ msg) ∈
            handleFailure cfg env mr (ProcessMR cfg env mr).1 := by
        rw [handleFailure_eq, hopen]
        simp
      simp only [List.cons_append, List.mem_cons, List.mem_append]
      exact Or.inr (Or.inr (Or.inr (Or.inr hw)))

/-- C3 witness: with a cooperating tracker, the claimed item's status does
return to `open` and the failure is logged. -/
theorem C3_witness :
    (processOnce DefaultMergeQueueConfig false envOkAll).1 = none ∧
    Event.updateCall mrEx.id "open" true ∈
      (processOnce DefaultMergeQueueConfig false envOkAll).2 := by
  have h := C3_amended_failure_reopens DefaultMergeQueueConfig envOkAll
    mrEx [] rfl rfl
  exact ⟨h.1, h.2.2.2.1 rfl⟩

/-- The default configuration with the `auto_rebase` conflict strategy. -/
def cfgAutoRebase : MergeQueueConfig :=
  { DefaultMergeQueueConfig with onConflict := "auto_rebase" }

/-- C4 counterexample: with `on_conflict = "auto_rebase"` and a failing
pipeline invocation, the whole cycle contains exactly one pipeline
invocation — no resubmission — and the failure handler's complete trace is
just the reopen update and the failure log (the `assign_back` behaviour):
no rebase of any kind is attempted. -/
theorem C4_counterexample :
    cfgAutoRebase.onConflict = "auto_rebase" ∧
    ((processOnce cfgAutoRebase false envOkAll).2.filter Event.isPipeline).length = 1 ∧
    handleFailure cfgAutoRebase envOkAll mrEx
        (ProcessMR cfgAutoRebase envOkAll mrEx).1 =
      [Event.updateCall mrEx.id "open" true,
       Event.log ("[Engineer] ✗ Failed: " ++ mrEx.id ++ " - " ++
         "no MR fields found in description")] := by
  decide

/-- C4 amended: the failure handler ignores the configured conflict
strategy entirely — under any configuration (in particular `auto_rebase`)
it behaves exactly as under any other, performs no pipeline resubmission,
and immediately applies the `assign_back` behaviour: it issues the reopen
update (`auto_rebase` is designed but unimplemented). -/
theorem C4_amended_auto_rebase_unimplemented (cfg cfg2 : MergeQueueConfig)
    (env : TrackerEnv) (mr : Issue) (result : ProcessResult) :
    handleFailure cfg env mr result = handleFailure cfg2 env mr result ∧
    (∀ e ∈ handleFailure cfg env mr result, e.isPipeline = false) ∧
    Event.updateCall mr.id "open" (env.updateRes mr.id "open").isNone ∈
      handleFailure cfg env mr result :=
  ⟨rfl, handleFailure_no_pipeline cfg env mr result,
    handleFailure_mem_reopen cfg env mr result⟩

/-- C8: when a pipeline result is a success, the result dispatch closes
the item with a reason string containing the merge-commit reference; if the
close call fails, only a warning is logged — the item is never updated
(not reopened) and in either case the dispatch completes and `processOnce`
returns no error on any path that reaches result handling (the close is
best-effort bookkeeping). -/
theorem C8_success_close_best_effort (cfg : MergeQueueConfig)
    (env : TrackerEnv) (mr : Issue) (result : ProcessResult)
    (hs : result.success = true) :
    result.mergeCommit.data <:+ ("merged: " ++ result.mergeCommit).data ∧
    (env.closeRes ("merged: " ++ result.mergeCommit) mr.id = none →
      handleResult cfg env mr result =
        [Event.closeCall ("merged: " ++ result.mergeCommit) mr.id true,
         Event.log ("[Engineer] ✓ Merged: " ++ mr.id)]) ∧
    (∀ e, env.closeRes ("merged: " ++ result.mergeCommit) mr.id = some e →
      handleResult cfg env mr result =
        [Event.closeCall ("merged: " ++ result.mergeCommit) mr.id false,
         Event.log ("[Engineer] Warning: failed to close MR " ++ mr.id ++ ": " ++ e),
         Event.log ("[Engineer] ✓ Merged: " ++ mr.id)]) ∧
    (∀ e ∈ handleResult cfg env mr result,
      ∀ id st b, e ≠ Event.updateCall id st b) ∧
    (∀ env2 mr2 rest2, env2.ready = Except.ok (mr2 :: rest2) →
      env2.updateRes mr2.id "in_progress" = none →
      (processOnce cfg false env2).1 = none) := by
  refine ⟨⟨"merged: ".data, by rw [String.data_append]⟩, ?_, ?_, ?_, ?_⟩
  · intro hclose
    simp only [handleResult, hs, if_true, hclose]
  · intro e hclose
    simp only [handleResult, hs, if_true, hclose]
  · intro e he id st b
    simp only [handleResult, hs, if_true] at he
    cases hclose : env.closeRes ("merged: " ++ result.mergeCommit) mr.id <;>
      rw [hclose] at he <;> simp only [List.mem_cons, List.not_mem_nil, or_false] at he
    · rcases he with rfl | rfl <;> simp
    · rcases he with rfl | rfl | rfl <;> simp
  · intro env2 mr2 rest2 h2 hclaim2
    rw [processOnce_ok_eq cfg env2 mr2 rest2 h2 hclaim2]

/-- A successful pipeline result, as the designed full implementation would
produce it. -/
def resultSuccess : ProcessResult :=
  { success := true, mergeCommit := "abc123", error := "",
    conflict := false, testsFailed := false }

/-- C8 witness: with a cooperating tracker the dispatch of a successful
result is exactly the accepted close (reason carrying the commit) plus the
merged log. -/
theorem C8_witness :
    handleResult DefaultMergeQueueConfig envOkAll mrEx resultSuccess =
      [Event.closeCall ("merged: " ++ "abc123") mrEx.id true,
       Event.log ("[Engineer] ✓ Merged: " ++ mrEx.id)] :=
  (C8_success_close_best_effort DefaultMergeQueueConfig envOkAll mrEx
    resultSuccess rfl).2.1 rfl

/-- C10: the placeholder pipeline fails on every input — success false,
error non-empty, conflict and testsFailed false, whether or not the
description fields parse — so on every non-empty cycle with an accepted
claim no close call ever appears in the trace and the claimed item is
handed to the failure handler, whose reopen update is issued (accepted
exactly when the tracker accepts it). -/
theorem C10_success_path_unreachable (cfg : MergeQueueConfig)
    (env : TrackerEnv) (mr : Issue) (rest : List Issue)
    (h : env.ready = Except.ok (mr :: rest))
    (hclaim : env.updateRes mr.id "in_progress" = none) :
    (∀ cfg2 env2 mr2,
      (ProcessMR cfg2 env2 mr2).1.success = false ∧
      (ProcessMR cfg2 env2 mr2).1.error ≠ "" ∧
      (ProcessMR cfg2 env2 mr2).1.conflict = false ∧
      (ProcessMR cfg2 env2 mr2).1.testsFailed = false) ∧
    (∀ reason id b,
      Event.closeCall reason id b ∉ (processOnce cfg false env).2) ∧
    Event.updateCall mr.id "open" (env.updateRes mr.id "open").isNone ∈
      (processOnce cfg false env).2 := by
  have hfail : handleResult cfg env mr (ProcessMR cfg env mr).1 =
      handleFailure cfg env mr (ProcessMR cfg env mr).1 :=
    handleResult_of_fail cfg env mr _ (ProcessMR_result cfg env mr).1
  refine ⟨?_, ?_, ?_⟩
  · intro cfg2 env2 mr2
    have hr := ProcessMR_result cfg2 env2 mr2
    exact ⟨hr.1, hr.2.2.1, hr.2.2.2.1, hr.2.2.2.2⟩
  · intro reason id b hmem
    rw [processOnce_ok_eq cfg env mr rest h hclaim, hfail] at hmem
    simp only [List.cons_append, List.nil_append, List.mem_cons,
      List.mem_append] at hmem
    rcases hmem with h1 | h1 | h1 | h1
    · exact Event.noConfusion h1
    · exact Event.noConfusion h1
    · exact Event.noConfusion h1
    · rcases h1 with h1 | h1
      · obtain ⟨m, hm⟩ := ProcessMR_trace_logs cfg env mr _ h1
        exact Event.noConfusion hm
      · exact handleFailure_no_close cfg env mr _ reason id b h1
  · rw [processOnce_ok_eq cfg env mr rest h hclaim, hfail]
    simp only [List.cons_append, List.mem_cons, List.mem_append]
    exact Or.inr (Or.inr (Or.inr (Or.inr
      (handleFailure_mem_reopen cfg env mr _))))

/-- C10 witness: at a concrete one-item queue no close call appears and the
reopen update is issued and accepted. -/
theorem C10_witness :
    (∀ reason id b, Event.closeCall reason id b ∉
      (processOnce DefaultMergeQueueConfig false envOkAll).2) ∧
    Event.updateCall mrEx.id "open"
        (envOkAll.updateRes mrEx.id "open").isNone ∈
      (processOnce DefaultMergeQueueConfig false envOkAll).2 := by
  have h := C10_success_path_unreachable DefaultMergeQueueConfig envOkAll
    mrEx [] rfl rfl
  exact ⟨h.2.1, h.2.2⟩

end Refinery
